import Mathlib

/-!
Shallow embedding of the edit-reconciliation engine of `src/main.py`
(the `should_patrol_*` decision predicates, the description tidying helper
and the alias diff scraper), together with theorems settling the claims
about them.

Modelling conventions:
* A Python `dict` becomes an association list; `not d` (dict falsiness) is
  `List.isEmpty`, `key in d` is `(List.lookup key d).isSome`, `d.get(key)`
  is `List.lookup key d`.
* The live state that `pywikibot` fetches for the subject item becomes the
  `EntitySnapshot` structure; a site link is stored as the page-title string
  that the source compares after stripping `[[`/`]]` from `str(SiteLink)`.
* External lookups performed by the site-link predicates (the client wiki
  page existence check, the reverse item lookup, and the exceptions the
  source catches) become oracle fields of the `World` structure.
* A decision function whose source can let an exception escape uncaught is
  given return type `Option Bool`; `none` models the uncaught exception.
-/

namespace PatrolBot

/-- Result of `scrape_aliases_from_diff`: the dict with keys `add` and
`remove`, each an ordered list of scraped alias strings. -/
structure AliasDiff where
  add : List String
  remove : List String
deriving DecidableEq, Repr

/-- Live state of the subject item as read off `pwb.ItemPage`:
`exists()`, `isRedirectPage()`, and the `sitelinks` / `labels` /
`descriptions` / `aliases` mappings after `get()`. -/
structure EntitySnapshot where
  exists_ : Bool
  isRedirect : Bool
  sitelinks : List (String × String)
  labels : List (String × String)
  descriptions : List (String × String)
  aliases : List (String × List String)
deriving DecidableEq, Repr

/-- Exceptions of `pywikibot` that the site-link predicates catch when
probing the client wiki page (`project_page.exists()`). -/
inductive PwbError where
  | invalidTitle
  | unsupportedPage
deriving DecidableEq, Repr

/-- The full input of one decision-predicate call: the live snapshot of the
subject item plus oracles for every external effect the source performs. -/
structure World where
  item : EntitySnapshot
  /-- `item_page.sitelinks.get(key)` raises `NoUsername(Error)`. -/
  sitelinkGetRaises : Bool
  /-- `str(connected_sitelink)` raises `NoUsernameError`. -/
  sitelinkStrRaises : Bool
  /-- Outcome of `project_page.exists()` on the client wiki. -/
  projectPageExists : Except PwbError Bool
  /-- `pwb.ItemPage.fromPage(project_page).title()`; `none` models
  `NoPageError` (no item connected). -/
  connectedItem : Option String
  /-- `item_page.exists()` raises `ValueError`
  (caught only in `should_patrol_label_removal`). -/
  existsRaisesValueError : Bool
deriving Repr

/-- Second half of `should_patrol_sitelink_removal` (source lines 300-325):
check which item the client wiki page is connected to.  Only
`InvalidTitleError` is caught there, so `unsupportedPage` escapes (`none`). -/
def sitelink_removal_second_attempt (w : World) (qid : String) : Option Bool :=
  match w.projectPageExists with
  | .error .invalidTitle => some false
  | .error .unsupportedPage => none
  | .ok pexists =>
    if !pexists then some true
    else
      match w.connectedItem with
      | none => some false
      | some t => if qid != t then some true else some false

/-- `should_patrol_sitelink_removal` (source lines 272-325). -/
def should_patrol_sitelink_removal (w : World) (qid key value : String) :
    Option Bool :=
  if !w.item.exists_ then some false
  else if w.item.isRedirect then some false
  else if w.item.sitelinks.isEmpty then some false
  else if w.sitelinkGetRaises then some false
  else
    match w.item.sitelinks.lookup key with
    | some connected =>
      if w.sitelinkStrRaises then none
      else if connected == value then some true
      else sitelink_removal_second_attempt w qid
    | none => sitelink_removal_second_attempt w qid

/-- Second half of `should_patrol_sitelink_addition` (source lines 369-395):
both `InvalidTitleError` and `UnsupportedPageError` are caught. -/
def sitelink_addition_second_attempt (w : World) (qid : String) : Option Bool :=
  match w.projectPageExists with
  | .error _ => some false
  | .ok pexists =>
    if !pexists then some true
    else
      match w.connectedItem with
      | none => some false
      | some t => if qid != t then some true else some false

/-- `should_patrol_sitelink_addition` (source lines 328-395). -/
def should_patrol_sitelink_addition (w : World) (qid key value : String) :
    Option Bool :=
  if !w.item.exists_ then some false
  else if w.item.isRedirect then some true
  else if w.item.sitelinks.isEmpty then some true
  else if (w.item.sitelinks.lookup key).isNone then some true
  else if w.sitelinkGetRaises then some false
  else
    match w.item.sitelinks.lookup key with
    | some connected =>
      if w.sitelinkStrRaises then some false
      else if connected != value then some true
      else sitelink_addition_second_attempt w qid
    | none => sitelink_addition_second_attempt w qid

/-- `should_patrol_label_removal` (source lines 398-426). -/
def should_patrol_label_removal (w : World) (qid key value : String) : Bool :=
  if w.existsRaisesValueError then false
  else if !w.item.exists_ then false
  else if w.item.isRedirect then true
  else if w.item.labels.isEmpty then false
  else
    match w.item.labels.lookup key with
    | none => false
    | some l => l == value

/-- `should_patrol_label_modification` (source lines 429-455). -/
def should_patrol_label_modification (w : World) (qid key value : String) :
    Bool :=
  if !w.item.exists_ then false
  else if w.item.isRedirect then true
  else if w.item.labels.isEmpty then true
  else
    match w.item.labels.lookup key with
    | none => true
    | some l => l != value

/-- `should_patrol_description_removal` (source lines 458-482). -/
def should_patrol_description_removal (w : World) (qid key value : String) :
    Bool :=
  if !w.item.exists_ then false
  else if w.item.isRedirect then true
  else if w.item.descriptions.isEmpty then false
  else
    match w.item.descriptions.lookup key with
    | none => false
    | some d => d == value

/-- The `appendices` allow-list inside `tidy_description`
(source lines 493-498). -/
def appendices : List String :=
  [ "#suggestededit-add 1.0"
  , "#suggestededit-translate 1.0"
  , "([[w:en:Wikipedia:Shortdesc helper|Shortdesc helper]])" ]

/-- `tidy_description` (source lines 492-509, nested inside
`should_patrol_description_modification`). -/
def tidy_description (description : String) : String :=
  if !description.contains ',' then description
  else
    let parts := description.splitOn ", "
    if !(appendices.contains (parts.getLastD "")) then description
    else String.intercalate ", " parts.dropLast

/-- `should_patrol_description_modification` (source lines 485-533). -/
def should_patrol_description_modification (w : World) (qid key value : String) :
    Bool :=
  let value := tidy_description value
  if !w.item.exists_ then false
  else if w.item.isRedirect then true
  else if w.item.descriptions.isEmpty then true
  else
    match w.item.descriptions.lookup key with
    | none => true
    | some d => d != value

/-- `should_patrol_alias_additions` (source lines 536-568). -/
def should_patrol_alias_additions (w : World) (qid key : String)
    (value : Option AliasDiff) : Bool :=
  match value with
  | none => false
  | some d =>
    if d.remove.length > 0 then false
    else if !w.item.exists_ then false
    else if w.item.isRedirect then true
    else if w.item.aliases.isEmpty then true
    else
      match w.item.aliases.lookup key with
      | none => true
      | some l => (d.add.filter (fun a => l.contains a)).length == 0

/-- `should_patrol_alias_removals` (source lines 571-601). -/
def should_patrol_alias_removals (w : World) (qid key : String)
    (value : Option AliasDiff) : Bool :=
  match value with
  | none => false
  | some d =>
    if d.add.length > 0 then false
    else if !w.item.exists_ then false
    else if w.item.isRedirect then true
    else if w.item.aliases.isEmpty then false
    else
      match w.item.aliases.lookup key with
      | none => false
      | some l => (d.remove.filter (fun a => !(l.contains a))).length == 0

/-- `should_patrol_alias_modifications` (source lines 604-637). -/
def should_patrol_alias_modifications (w : World) (qid key : String)
    (value : Option AliasDiff) : Bool :=
  match value with
  | none => false
  | some d =>
    if !w.item.exists_ then false
    else if w.item.isRedirect then true
    else if d.remove.length > 0 && w.item.aliases.isEmpty then false
    else if d.remove.length > 0 && (w.item.aliases.lookup key).isNone then false
    else
      let lval := (w.item.aliases.lookup key).getD []
      let aliases_still_missing :=
        d.remove.filter (fun a => !(lval.contains a))
      let aliases_still_existing :=
        if w.item.aliases.isEmpty || (w.item.aliases.lookup key).isNone then []
        else d.add.filter (fun a => lval.contains a)
      aliases_still_missing.length == 0 && aliases_still_existing.length == 0

/-- `should_patrol_sitelink_deletion` (source lines 640-641): the value
argument is never inspected, so it is polymorphic here. -/
def should_patrol_sitelink_deletion {α : Type} (qid key : String)
    (value : α) : Bool :=
  true

/-- One `td` element of the parsed diff table, with the fields the scraper
reads: `attrib.get('class')`, `str(td_tag.text)`, and the inner texts
`find('div').find('del').text` / `find('div').find('ins').text`. -/
structure TdTag where
  cls : Option String
  txt : String
  delTxt : String
  insTxt : String
deriving DecidableEq, Repr

/-- Body of the inner `for td_tag in td_tags` loop of
`scrape_aliases_from_diff` (source lines 248-266), acting on the state
`(process_table_cells, aliases)`.  `odd` is `i % 2 == 1` for the row. -/
def scrape_td (odd : Bool) (st : Bool × AliasDiff) (td : TdTag) :
    Bool × AliasDiff :=
  if odd then
    if !(td.cls == some "diff-lineno") then (false, st.2)
    else (td.txt.startsWith "aliases / ", st.2)
  else
    if st.1 then
      let d1 := if td.cls == some "diff-deletedline"
                then { st.2 with remove := st.2.remove ++ [td.delTxt] }
                else st.2
      let d2 := if td.cls == some "diff-addedline"
                then { d1 with add := d1.add ++ [td.insTxt] }
                else d1
      (st.1, d2)
    else st

/-- The outer `for i, tr_tag in enumerate(tr_tags, start=1)` loop of
`scrape_aliases_from_diff` (source lines 246-266). -/
def scrape_rows : Nat → (Bool × AliasDiff) → List (List TdTag) → AliasDiff
  | _, st, [] => st.2
  | i, st, tr :: rest => scrape_rows (i + 1) (tr.foldl (scrape_td (i % 2 == 1)) st) rest

/-- `scrape_aliases_from_diff` (source lines 233-268).  The lxml step
`etree.fromstring(diff, HTMLParser())` followed by `tree.xpath('//tr')` is
an external deterministic function of the diff string; it is passed in as
`parse`, with `none` modelling the caught `AttributeError`.  A raised
`RuntimeError` becomes `Except.error`. -/
def scrape_aliases_from_diff (parse : String → Option (List (List TdTag)))
    (diff : String) : Except String AliasDiff :=
  if diff.length == 0 then .error "Cannot scrape links from empty string"
  else
    match parse diff with
    | none => .error "xpath attribute missing"
    | some tr_tags => .ok (scrape_rows 1 (false, ⟨[], []⟩) tr_tags)

/-- Modelled from the spec (section 4.3 / design notes): the description
tidy step as the spec words it — split on the `", "` separator, and drop
the last comma-segment exactly when the value contains a comma and that
last segment is one of the fixed allow-list strings; otherwise the value
is unchanged.  Used to compare against the source's `tidy_description`. -/
def tidy_description_spec (description : String) : String :=
  let parts := description.splitOn ", "
  if description.contains ',' && appendices.contains (parts.getLastD "") then
    String.intercalate ", " parts.dropLast
  else description

/-- A successful association-list lookup comes from an entry of the list. -/
theorem lookup_mem {β : Type} {l : List (String × β)} {k : String} {v : β}
    (h : l.lookup k = some v) : ∃ k', (k', v) ∈ l := by
  induction l with
  | nil => simp [List.lookup] at h
  | cons p rest ih =>
    rw [List.lookup] at h
    by_cases hk : (k == p.1) = true
    · rw [hk] at h
      simp only [Option.some.injEq] at h
      exact ⟨p.1, by simp [← h]⟩
    · rw [Bool.not_eq_true] at hk
      rw [hk] at h
      obtain ⟨k', hk'⟩ := ih h
      exact ⟨k', by simp [hk']⟩

/-- A list with a successful lookup is not empty. -/
theorem lookup_isEmpty_false {β : Type} {l : List (String × β)} {k : String}
    {v : β} (h : l.lookup k = some v) : l.isEmpty = false := by
  cases l with
  | nil => simp [List.lookup] at h
  | cons p rest => rfl

/-- C9: the site-link deletion (client-side) decision predicate returns
approve for every subject id, key and value, with no check of the live
entity state. -/
theorem sitelink_deletion_always_approves {α : Type} (qid key : String)
    (value : α) : should_patrol_sitelink_deletion qid key value = true :=
  rfl

/-- C4: for every alias-kind intent whose value is `null` (diff extraction
or parse failed), the corresponding decision predicate denies for every
subject id, key and live snapshot. -/
theorem alias_null_value_always_denies (w : World) (qid key : String) :
    should_patrol_alias_additions w qid key none = false
    ∧ should_patrol_alias_removals w qid key none = false
    ∧ should_patrol_alias_modifications w qid key none = false :=
  ⟨rfl, rfl, rfl⟩

/-- C8: alias diff extraction is deterministic given the stored HTML
string: two runs on the same string yield identical added and removed
sequences. -/
theorem scrape_aliases_deterministic
    (parse : String → Option (List (List TdTag))) (diff : String)
    (r1 r2 : AliasDiff)
    (h1 : scrape_aliases_from_diff parse diff = .ok r1)
    (h2 : scrape_aliases_from_diff parse diff = .ok r2) :
    r1.add = r2.add ∧ r1.remove = r2.remove := by
  rw [h1] at h2
  injection h2 with h
  rw [h]
  exact ⟨rfl, rfl⟩

/-- Witness for C8 on a concrete parse function and diff string. -/
theorem scrape_aliases_deterministic_witness :
    (AliasDiff.mk [] []).add = (AliasDiff.mk [] []).add
    ∧ (AliasDiff.mk [] []).remove = (AliasDiff.mk [] []).remove :=
  scrape_aliases_deterministic (fun _ => some []) "x" ⟨[], []⟩ ⟨[], []⟩ rfl rfl

/-- C7: the description addition/modification predicate first normalizes
the edited value with the suffix-stripping transform (split on the comma
separator, drop the last segment only when it is one of the fixed
allow-list strings) and then runs the label-modification-shaped comparison
against the live description with that normalized value. -/
theorem description_modification_uses_tidied_value (w : World)
    (qid key value : String) :
    tidy_description value = tidy_description_spec value
    ∧ should_patrol_description_modification w qid key value =
        should_patrol_label_modification
          { w with item := { w.item with labels := w.item.descriptions } }
          qid key (tidy_description value) := by
  constructor
  · by_cases h : value.contains ',' = true <;>
      by_cases h2 :
          appendices.contains ((value.splitOn ", ").getLastD "") = true <;>
      simp [tidy_description, tidy_description_spec, h, h2]
  · rfl

/-- C6: for an existing, non-redirect subject, the label
addition/modification predicate approves iff the entity has no labels at
all, or no label in the intent's language, or a label there that differs
from the edited value. -/
theorem label_modification_approves_iff (w : World) (qid key value : String)
    (hex : w.item.exists_ = true) (hr : w.item.isRedirect = false) :
    should_patrol_label_modification w qid key value = true ↔
      (w.item.labels = [] ∨ w.item.labels.lookup key = none
        ∨ ∃ l, w.item.labels.lookup key = some l ∧ l ≠ value) := by
  simp only [should_patrol_label_modification, hex, hr]
  cases hk : w.item.labels.lookup key with
  | none =>
    have : w.item.labels = [] ∨ w.item.labels ≠ [] := by tauto
    cases this with
    | inl he => simp [he, List.lookup]
    | inr he =>
      have hie : w.item.labels.isEmpty = false := by
        cases hl : w.item.labels with
        | nil => exact absurd hl he
        | cons p rest => rfl
      simp [hk, hie]
  | some l =>
    have hie := lookup_isEmpty_false hk
    have hne : w.item.labels ≠ [] := by
      intro he
      rw [he] at hk
      simp [List.lookup] at hk
    simp [hk, hie, hne, bne_iff_ne]

/-- Witness for C6: a live label differing from the edited value approves. -/
theorem label_modification_approves_iff_witness :
    should_patrol_label_modification
      ⟨⟨true, false, [], [("en", "old")], [], []⟩, false, false,
        Except.ok true, none, false⟩ "Q1" "en" "new" = true :=
  (label_modification_approves_iff _ "Q1" "en" "new" rfl rfl).mpr
    (Or.inr (Or.inr ⟨"old", rfl, by decide⟩))

/-- C5: for every edit kind except site-link deletion and every intent, a
snapshot showing the subject entity no longer exists makes the predicate
deny. -/
theorem nonexistent_entity_always_denies (w : World) (qid key vs : String)
    (vd : Option AliasDiff) (hex : w.item.exists_ = false) :
    should_patrol_sitelink_removal w qid key vs = some false
    ∧ should_patrol_sitelink_addition w qid key vs = some false
    ∧ should_patrol_label_removal w qid key vs = false
    ∧ should_patrol_label_modification w qid key vs = false
    ∧ should_patrol_description_removal w qid key vs = false
    ∧ should_patrol_description_modification w qid key vs = false
    ∧ should_patrol_alias_additions w qid key vd = false
    ∧ should_patrol_alias_removals w qid key vd = false
    ∧ should_patrol_alias_modifications w qid key vd = false := by
  refine ⟨?_, ?_, ?_, ?_, ?_, ?_, ?_, ?_, ?_⟩ <;>
    cases vd <;>
    simp [should_patrol_sitelink_removal, should_patrol_sitelink_addition,
      should_patrol_label_removal, should_patrol_label_modification,
      should_patrol_description_removal,
      should_patrol_description_modification,
      should_patrol_alias_additions, should_patrol_alias_removals,
      should_patrol_alias_modifications, hex]

/-- Witness for C5 at a concrete vanished entity. -/
theorem nonexistent_entity_always_denies_witness :
    should_patrol_label_modification
      ⟨⟨false, false, [], [], [], []⟩, false, false, Except.ok true, none,
        false⟩ "Q1" "en" "x" = false :=
  (nonexistent_entity_always_denies _ "Q1" "en" "x" none rfl).2.2.2.1

/-- C1 counterexample: for the site-link removal predicate, an existing
subject that is now a redirect yields deny, not approve as the claim
states. -/
theorem sitelink_removal_redirect_denies_cex :
    ((⟨⟨true, true, [], [], [], []⟩, false, false, Except.ok true, none,
        false⟩ : World)).item.exists_ = true
    ∧ ((⟨⟨true, true, [], [], [], []⟩, false, false, Except.ok true, none,
        false⟩ : World)).item.isRedirect = true
    ∧ ¬ (should_patrol_sitelink_removal
          ⟨⟨true, true, [], [], [], []⟩, false, false, Except.ok true, none,
            false⟩ "Q100" "enwiki" "Some page" = some true) := by
  refine ⟨rfl, rfl, ?_⟩
  intro h
  simp [should_patrol_sitelink_removal] at h

/-- C1 amended: for an existing subject that is now a redirect, every
decision predicate except the two site-link kinds approves regardless of
key and value (for alias kinds, once the value pre-checks pass: a non-null
diff, with no removed entries for alias addition and no added entries for
alias removal); site-link addition also approves, while site-link removal
denies on a redirect. -/
theorem redirect_approves_except_sitelink_removal (w : World)
    (qid key vs : String) (d : AliasDiff) (hex : w.item.exists_ = true)
    (hr : w.item.isRedirect = true)
    (hvr : w.existsRaisesValueError = false) :
    should_patrol_sitelink_removal w qid key vs = some false
    ∧ should_patrol_sitelink_addition w qid key vs = some true
    ∧ should_patrol_label_removal w qid key vs = true
    ∧ should_patrol_label_modification w qid key vs = true
    ∧ should_patrol_description_removal w qid key vs = true
    ∧ should_patrol_description_modification w qid key vs = true
    ∧ (d.remove = [] → should_patrol_alias_additions w qid key (some d) = true)
    ∧ (d.add = [] → should_patrol_alias_removals w qid key (some d) = true)
    ∧ should_patrol_alias_modifications w qid key (some d) = true := by
  refine ⟨?_, ?_, ?_, ?_, ?_, ?_, ?_, ?_, ?_⟩
  · simp [should_patrol_sitelink_removal, hex, hr]
  · simp [should_patrol_sitelink_addition, hex, hr]
  · simp [should_patrol_label_removal, hex, hr, hvr]
  · simp [should_patrol_label_modification, hex, hr]
  · simp [should_patrol_description_removal, hex, hr]
  · simp [should_patrol_description_modification, hex, hr]
  · intro h; simp [should_patrol_alias_additions, hex, hr, h]
  · intro h; simp [should_patrol_alias_removals, hex, hr, h]
  · simp [should_patrol_alias_modifications, hex, hr]

/-- Witness for the amended C1 at a concrete redirected entity. -/
theorem redirect_approves_except_sitelink_removal_witness :
    should_patrol_label_modification
      ⟨⟨true, true, [], [], [], []⟩, false, false, Except.ok true, none,
        false⟩ "Q1" "en" "x" = true :=
  (redirect_approves_except_sitelink_removal _ "Q1" "en" "x" ⟨[], []⟩ rfl rfl
    rfl).2.2.2.1

/-- C2 counterexample: with diff `remove=["X"]`, no added entries, and a
live alias set `{en: ["Y"]}` in which the removed alias "X" is still
absent, the alias-removal predicate denies — the claim predicts approve. -/
theorem alias_removals_absent_still_denies_cex :
    List.lookup "en" [("en", ["Y"])] = some ["Y"]
    ∧ ("X" ∉ (["Y"] : List String))
    ∧ should_patrol_alias_removals
        ⟨⟨true, false, [], [], [], [("en", ["Y"])]⟩, false, false,
          Except.ok true, none, false⟩ "Q1" "en" (some ⟨[], ["X"]⟩) = false := by
  refine ⟨rfl, by decide, ?_⟩
  rfl

/-- C2 amended: the alias-removal predicate (non-null diff) denies when the
diff carries any added entries; otherwise, for an existing non-redirect
subject, it approves iff the entity has an alias set for the intent's
language and every alias in the diff's removed sequence is present in it
again (all re-added). -/
theorem alias_removals_approves_iff_readded (w : World) (qid key : String)
    (d : AliasDiff) (hex : w.item.exists_ = true)
    (hr : w.item.isRedirect = false) :
    (d.add ≠ [] → should_patrol_alias_removals w qid key (some d) = false)
    ∧ (d.add = [] →
        (should_patrol_alias_removals w qid key (some d) = true ↔
          ∃ l, w.item.aliases.lookup key = some l ∧ ∀ a ∈ d.remove, a ∈ l)) := by
  constructor
  · intro h
    have hlen : d.add.length > 0 := List.length_pos.mpr h
    simp [should_patrol_alias_removals, hlen]
  · intro h
    simp only [should_patrol_alias_removals, h, hex, hr]
    cases hk : w.item.aliases.lookup key with
    | none =>
      cases hie : w.item.aliases.isEmpty <;> simp [hk, hie]
    | some l =>
      have hie := lookup_isEmpty_false hk
      simp [hk, hie, List.filter_eq_nil_iff, List.length_eq_zero]

/-- Witness for the amended C2: all removed aliases re-added approves. -/
theorem alias_removals_approves_iff_readded_witness :
    should_patrol_alias_removals
      ⟨⟨true, false, [], [], [], [("en", ["X"])]⟩, false, false,
        Except.ok true, none, false⟩ "Q1" "en" (some ⟨[], ["X"]⟩) = true :=
  ((alias_removals_approves_iff_readded _ "Q1" "en" ⟨[], ["X"]⟩ rfl rfl).2
    rfl).mpr ⟨["X"], rfl, by decide⟩

/-- C3 counterexample: with diff `remove=["X"]`, empty added sequence, and
live alias set `{en: ["X"]}` where the removed alias "X" is present again
(not absent), the alias set/update predicate approves — the claim predicts
deny because a removed alias does not remain absent. -/
theorem alias_modifications_removed_present_approves_cex :
    List.lookup "en" [("en", ["X"])] = some ["X"]
    ∧ ("X" ∈ (["X"] : List String))
    ∧ should_patrol_alias_modifications
        ⟨⟨true, false, [], [], [], [("en", ["X"])]⟩, false, false,
          Except.ok true, none, false⟩ "Q1" "en" (some ⟨[], ["X"]⟩) = true := by
  refine ⟨rfl, by decide, ?_⟩
  rfl

/-- C3 amended: the alias set/update predicate (non-null diff), for an
existing non-redirect subject, approves iff the entity has an alias set
for the intent's language whenever the diff's removed sequence is
non-empty, every removed alias is present in that set again (all
re-added), and every added alias is no longer present in it. -/
theorem alias_modifications_approves_iff_reversal (w : World)
    (qid key : String) (d : AliasDiff) (hex : w.item.exists_ = true)
    (hr : w.item.isRedirect = false) :
    should_patrol_alias_modifications w qid key (some d) = true ↔
      ((d.remove ≠ [] → ∃ l, w.item.aliases.lookup key = some l)
        ∧ (∀ a ∈ d.remove, a ∈ (w.item.aliases.lookup key).getD [])
        ∧ (∀ a ∈ d.add, a ∉ (w.item.aliases.lookup key).getD [])) := by
  simp only [should_patrol_alias_modifications, hex, hr]
  cases hk : w.item.aliases.lookup key with
  | some l =>
    have hie := lookup_isEmpty_false hk
    simp [hk, hie, List.filter_eq_nil_iff, List.length_eq_zero]
  | none =>
    cases hrem : d.remove with
    | nil =>
      cases hie : w.item.aliases.isEmpty <;> simp [hk, hie]
    | cons b bs =>
      cases hie : w.item.aliases.isEmpty <;> simp [hk, hie]

/-- Witness for the amended C3: removed alias re-added and added alias
gone approves. -/
theorem alias_modifications_approves_iff_reversal_witness :
    should_patrol_alias_modifications
      ⟨⟨true, false, [], [], [], [("en", ["R"])]⟩, false, false,
        Except.ok true, none, false⟩ "Q1" "en" (some ⟨["A"], ["R"]⟩) = true :=
  (alias_modifications_approves_iff_reversal _ "Q1" "en" ⟨["A"], ["R"]⟩ rfl
    rfl).mpr ⟨fun _ => ⟨["R"], rfl⟩, by decide, by decide⟩

/-- C10: for an alias-removal intent with an empty diff (no added and no
removed entries), the predicate still denies on a null value, approves on
an existing redirect, and for an existing non-redirect subject approves
iff the entity has at least one alias in the intent's language (the
per-alias check is vacuous); well-formedness assumes every language entry
of the alias mapping is non-empty, as the live fetcher produces. -/
theorem alias_removals_empty_diff (w : World) (qid key : String)
    (hwf : ∀ p ∈ w.item.aliases, p.2 ≠ ([] : List String))
    (hex : w.item.exists_ = true) :
    should_patrol_alias_removals w qid key none = false
    ∧ (w.item.isRedirect = true →
        should_patrol_alias_removals w qid key (some ⟨[], []⟩) = true)
    ∧ (w.item.isRedirect = false →
        (should_patrol_alias_removals w qid key (some ⟨[], []⟩) = true ↔
          ∃ l, w.item.aliases.lookup key = some l ∧ l ≠ [])) := by
  refine ⟨rfl, ?_, ?_⟩
  · intro hr
    simp [should_patrol_alias_removals, hex, hr]
  · intro hr
    simp only [should_patrol_alias_removals, hex, hr]
    cases hk : w.item.aliases.lookup key with
    | none =>
      cases hie : w.item.aliases.isEmpty <;> simp [hk, hie]
    | some l =>
      have hie := lookup_isEmpty_false hk
      have hl : l ≠ [] := by
        obtain ⟨k', hmem⟩ := lookup_mem hk
        exact hwf (k', l) hmem
      simp [hk, hie, hl]

/-- Witness for C10: empty diff with one live alias in the language
approves. -/
theorem alias_removals_empty_diff_witness :
    should_patrol_alias_removals
      ⟨⟨true, false, [], [], [], [("en", ["A"])]⟩, false, false,
        Except.ok true, none, false⟩ "Q1" "en" (some ⟨[], []⟩) = true :=
  ((alias_removals_empty_diff _ "Q1" "en" (by decide) rfl).2.2 rfl).mpr
    ⟨["A"], rfl, by decide⟩

end PatrolBot
